import Mathlib

/-!
Shallow embedding of the remnawave-iac backup/restore pipeline
(src/configuration/roles/backup/files/: archive.py, cleanup.py, cli.py,
postgres.py, sqlite.py, telegram.py).

The filesystem is an association list from absolute path strings to blobs.
External tools (tar, gpg, docker, pg tools) are modelled by explicit
success flags and by symbolic blob constructors: a tarball blob records the
single member written by tar -czf, a gpgEnc blob records the passphrase a
blob was encrypted under, so that decryption with the same passphrase is
exact inversion. Every spawned external process is recorded in a trace
event carrying its argument vector and optional stdin payload, mirroring
the subprocess.run calls of the source.
-/

namespace Backup

/-- File contents. `raw` is an opaque byte list (a dump file), `tarball`
is the single-member compressed container written by tar -czf, `gpgEnc`
is the output of gpg -c under a passphrase. -/
inductive Blob where
  | raw (data : List Nat) : Blob
  | tarball (memberName : String) (content : Blob) : Blob
  | gpgEnc (pass : String) (inner : Blob) : Blob
deriving DecidableEq, Repr

/-- A directory tree flattened to full-path/blob pairs. -/
abbrev Fs := List (String × Blob)

/-- One observable side effect: a spawned process (argv plus optional
stdin payload) or an HTTP document upload. -/
inductive Event where
  | proc (argv : List String) (stdinData : Option String) : Event
  | upload (token chatId filePath caption : String) : Event
deriving DecidableEq, Repr

abbrev Trace := List Event

/-- Content of the file at path `p`, if present. -/
def fsLookup (fs : Fs) (p : String) : Option Blob :=
  match fs with
  | [] => none
  | (q, b) :: rest => if q = p then some b else fsLookup rest p

/-- Write `b` at path `p`: replace in place when present, append when new
(directory listing order is the list order). -/
def fsInsert (fs : Fs) (p : String) (b : Blob) : Fs :=
  match fs with
  | [] => [(p, b)]
  | (q, c) :: rest => if q = p then (p, b) :: rest else (q, c) :: fsInsert rest p b

/-- unlink: remove the entry at path `p`. -/
def fsRemove (fs : Fs) (p : String) : Fs :=
  match fs with
  | [] => []
  | (q, c) :: rest => if q = p then fsRemove rest p else (q, c) :: fsRemove rest p

/-- Path.exists(). -/
def fsExists (fs : Fs) (p : String) : Bool :=
  (fsLookup fs p).isSome

/-- str.split(sep) for a one-character separator, over char lists. -/
def splitChar (sep : Char) : List Char → List (List Char)
  | [] => [[]]
  | c :: rest =>
    match splitChar sep rest with
    | g :: gs => if c = sep then [] :: g :: gs else (c :: g) :: gs
    | [] => if c = sep then [[], []] else [[c]]

/-- The pattern list is a leading segment of the subject list. -/
def subAt : List Char → List Char → Bool
  | [], _ => true
  | _ :: _, [] => false
  | a :: as, b :: bs => a = b && subAt as bs

/-- str.startswith(pat). -/
def strStarts (s pat : String) : Bool :=
  subAt pat.data s.data

/-- str.endswith(pat). -/
def strEnds (s pat : String) : Bool :=
  subAt pat.data.reverse s.data.reverse

/-- Path.parent as a string: everything before the last slash. -/
def parentDir (p : String) : String :=
  String.mk (List.intercalate ['/'] (splitChar '/' p.data).dropLast)

/-- Path.name: everything after the last slash. -/
def baseName (p : String) : String :=
  String.mk (((splitChar '/' p.data).getLast?).getD [])

def pathJoin (dir name : String) : String := dir ++ "/" ++ name

/-- The tail of `l` starting at its last dot, if `l` has a dot. -/
def lastDotTail : List Char → Option (List Char)
  | [] => none
  | c :: rest =>
    match lastDotTail rest with
    | some s => some s
    | none => if c = '.' then some (c :: rest) else none

/-- pathlib suffix: the last extension of the base name; empty when the
only dot is leading or trailing (so ".gpg" has no suffix). -/
def pySuffix (p : String) : String :=
  match (baseName p).data with
  | [] => ""
  | _ :: rest =>
    match lastDotTail rest with
    | some s => if 2 ≤ s.length then String.mk s else ""
    | none => ""

/-- Path.with_suffix resolved at an empty target: drop the last extension. -/
def pyDropSuffix (p : String) : String :=
  String.mk (p.data.take (p.data.length - (pySuffix p).length))

/-- fnmatch against the shell pattern `pre ++ "*" ++ suf` (the only
pattern shape the source uses), with the glob rule that a leading `*`
does not match a hidden name. -/
def matchStarPat (pre suf name : String) : Bool :=
  strStarts name pre && strEnds name suf &&
    pre.length + suf.length ≤ name.length &&
    (pre ≠ "" || !(strStarts name "."))

/-- Names of the direct children of `dir` (in filesystem list order). -/
def dirList (fs : Fs) (dir : String) : List String :=
  fs.filterMap fun e =>
    if parentDir e.1 = dir then some (baseName e.1) else none

/-- Path(dir).glob(pre ++ "*" ++ suf): matching children of `dir`, as
full paths. A path that names a plain file has no children, so globbing
under it yields nothing — as in pathlib, where scandir on a non-directory
makes the selector produce an empty result. -/
def glob (fs : Fs) (dir pre suf : String) : List String :=
  ((dirList fs dir).filter (matchStarPat pre suf)).map (pathJoin dir)

/-! ## Calendar arithmetic (datetime, timedelta, strptime, strftime) -/

/-- Days since 1970-01-01 of the civil date y-m-d (standard civil
calendar conversion with truncating division; exact for the post-1969
dates the two-digit year format can denote). -/
def daysFromCivil (y m d : Int) : Int :=
  let y' := if m ≤ 2 then y - 1 else y
  let era := (if 0 ≤ y' then y' else y' - 399) / 400
  let yoe := y' - era * 400
  let mp := (m + 9) % 12
  let doy := (153 * mp + 2) / 5 + d - 1
  let doe := yoe * 365 + yoe / 4 - yoe / 100 + doy
  era * 146097 + doe - 719468

/-- Inverse of daysFromCivil: the civil date (y, m, d) of an epoch day. -/
def civilFromDays (z0 : Int) : Int × Int × Int :=
  let z := z0 + 719468
  let era := (if 0 ≤ z then z else z - 146096) / 146097
  let doe := z - era * 146097
  let yoe := (doe - doe / 1460 + doe / 36524 - doe / 146096) / 365
  let y := yoe + era * 400
  let doy := doe - (365 * yoe + yoe / 4 - yoe / 100)
  let mp := (5 * doy + 2) / 153
  let d := doy - (153 * mp + 2) / 5 + 1
  let m := mp + (if mp < 10 then 3 else -9)
  (if m ≤ 2 then y + 1 else y, m, d)

/-- A wall-clock instant: seconds since the 1970-01-01 midnight epoch. -/
abbrev PyTime := Nat

def isLeapYear (y : Int) : Bool :=
  (y % 4 = 0 && y % 100 ≠ 0) || y % 400 = 0

def daysInMonth (y m : Int) : Int :=
  if m = 2 then (if isLeapYear y then 29 else 28)
  else if m = 4 || m = 6 || m = 9 || m = 11 then 30
  else 31

def digitsToNat (l : List Char) : Nat :=
  l.foldl (fun acc c => acc * 10 + (c.toNat - 48)) 0

/-- A digit group of the %d / %m directives: one or two decimal digits. -/
def twoDigitGroup (s : List Char) : Option Nat :=
  if (s.length = 1 || s.length = 2) && s.all Char.isDigit then
    some (digitsToNat s)
  else none

/-- The %y directive: exactly two decimal digits; POSIX pivot maps 00-68
to 2000-2068 and 69-99 to 1969-1999. -/
def yearGroup (s : List Char) : Option Int :=
  if s.length = 2 && s.all Char.isDigit then
    some (if digitsToNat s ≤ 68 then (2000 + digitsToNat s : Int)
          else 1900 + digitsToNat s)
  else none

/-- datetime.strptime(s, "%d-%m-%y"), returned as midnight of the parsed
date in epoch days; none models the ValueError raised on any string that
does not match the format or denotes an invalid calendar date. -/
def strptimeDMY (s : String) : Option Int :=
  match splitChar '-' s.data with
  | [ds, ms, ys] =>
    match twoDigitGroup ds, twoDigitGroup ms, yearGroup ys with
    | some d, some m, some y =>
      if 1 ≤ d && d ≤ 31 && 1 ≤ m && m ≤ 12 && (d : Int) ≤ daysInMonth y m then
        some (daysFromCivil y (m : Int) (d : Int))
      else none
    | _, _, _ => none
  | _ => none

/-- A zero-padded two-digit decimal group, as strftime %d / %m / %y
render their (always in-range) values. -/
def pad2 (n : Int) : String :=
  String.mk [Char.ofNat (48 + (n.toNat / 10) % 10), Char.ofNat (48 + n.toNat % 10)]

/-- datetime.now().strftime("%d-%m-%y") at instant `now`. -/
def formatDMY (now : PyTime) : String :=
  match civilFromDays ((now : Nat) / 86400 : Int) with
  | (y, m, d) => pad2 d ++ "-" ++ pad2 m ++ "-" ++ pad2 (y % 100)

/-- Midnight of a civil date as a PyTime instant. -/
def civilSecs (y m d : Int) : PyTime :=
  (daysFromCivil y m d * 86400).toNat

/-! ## archive.py: create_encrypted_archive / decrypt_archive -/

/-- Result of an archive.py operation: filesystem after the call, spawned
processes, and the returned path (none models both a None return and a
raised exception, which the callers in cli.py treat alike). -/
structure ArchOut where
  fs : Fs
  trace : Trace
  ret : Option String
deriving DecidableEq, Repr

def archiveName (pfx dateStr : String) : String :=
  pfx ++ "-" ++ dateStr ++ ".tar.gz"

def encryptedName (pfx dateStr : String) : String :=
  archiveName pfx dateStr ++ ".gpg"

/-- The tar -czf invocation of create_encrypted_archive. The argv names
the container path, the working directory and the dump member; no
passphrase is involved. -/
def tarCreateEvent (dumpFile pfx : String) (now : PyTime) : Event :=
  Event.proc ["tar", "-czf", pathJoin (parentDir dumpFile) (archiveName pfx (formatDMY now)),
    "-C", parentDir dumpFile, baseName dumpFile] none

/-- The gpg -c invocation of create_encrypted_archive: the argv carries
only option flags and the two paths; the passphrase rides on stdin
(input=password.encode() with --passphrase-fd 0). -/
def gpgCreateEvent (dumpFile pfx : String) (now : PyTime) (password : String) : Event :=
  Event.proc ["gpg", "--batch", "--yes", "--passphrase-fd", "0", "--cipher-algo", "AES256",
    "-c", "-o", pathJoin (parentDir dumpFile) (encryptedName pfx (formatDMY now)),
    pathJoin (parentDir dumpFile) (archiveName pfx (formatDMY now))] (some password)

/-- The gpg -d invocation of decrypt_archive; passphrase on stdin. -/
def gpgDecryptEvent (encryptedPath password : String) : Event :=
  Event.proc ["gpg", "--batch", "--yes", "--passphrase-fd", "0", "-d", "-o",
    pyDropSuffix encryptedPath, encryptedPath] (some password)

/-- The tar -xzf invocation of decrypt_archive. -/
def tarExtractEvent (encryptedPath : String) : Event :=
  Event.proc ["tar", "-xzf", pyDropSuffix encryptedPath, "-C", parentDir encryptedPath] none

/-- archive.py create_encrypted_archive. External tar and gpg exit
statuses are the explicit flags `tarOk`, `gpgOk`; a failing stage writes
nothing. On full success the intermediate container and the dump file are
unlinked. The gpg argv carries no passphrase; the passphrase travels as
the stdin payload of the gpg event, mirroring input=password.encode(). -/
def create_encrypted_archive (tarOk gpgOk : Bool) (fs : Fs) (dumpFile : String)
    (password pfx : String) (now : PyTime) : ArchOut :=
  let dateStr := formatDMY now
  let outputDir := parentDir dumpFile
  let archivePath := pathJoin outputDir (archiveName pfx dateStr)
  let encryptedPath := pathJoin outputDir (encryptedName pfx dateStr)
  let tarEv := tarCreateEvent dumpFile pfx now
  let gpgEv := gpgCreateEvent dumpFile pfx now password
  match fsLookup fs dumpFile with
  | none => ⟨fs, [tarEv], none⟩
  | some content =>
    if tarOk then
      let packed := Blob.tarball (baseName dumpFile) content
      let fs1 := fsInsert fs archivePath packed
      if gpgOk then
        let fs2 := fsInsert fs1 encryptedPath (Blob.gpgEnc password packed)
        ⟨fsRemove (fsRemove fs2 archivePath) dumpFile, [tarEv, gpgEv], some encryptedPath⟩
      else ⟨fs1, [tarEv, gpgEv], none⟩
    else ⟨fs, [tarEv], none⟩

/-- gpg -d on a blob: succeeds exactly when the blob is a symmetric
ciphertext produced under the supplied passphrase, yielding the
plaintext. -/
def gpgDecryptBlob (blob : Blob) (password : String) : Option Blob :=
  match blob with
  | Blob.gpgEnc p inner => if p = password then some inner else none
  | _ => none

/-- archive.py decrypt_archive. Existence and .gpg-extension checks run
before any process is spawned; gpg -d succeeds exactly when the stored
blob was encrypted under the supplied passphrase; tar -xzf then unpacks
the single member into the parent directory, the intermediate container
is unlinked, and the extracted dump is located by globbing for the
expected suffixes (first match wins, list order). -/
def decrypt_archive (tarOk : Bool) (fs : Fs) (encryptedPath : String)
    (password : String) : ArchOut :=
  if !fsExists fs encryptedPath then ⟨fs, [], none⟩
  else if pySuffix encryptedPath ≠ ".gpg" then ⟨fs, [], none⟩
  else
    let tarPath := pyDropSuffix encryptedPath
    let extractDir := parentDir encryptedPath
    let gpgEv := gpgDecryptEvent encryptedPath password
    let tarEv := tarExtractEvent encryptedPath
    match gpgDecryptBlob ((fsLookup fs encryptedPath).getD (Blob.raw [])) password with
    | some inner =>
      let fs1 := fsInsert fs tarPath inner
      match inner with
      | Blob.tarball name content =>
        if tarOk then
          let fs2 := fsRemove (fsInsert fs1 (pathJoin extractDir name) content) tarPath
          match glob fs2 extractDir "" ".dump" ++ glob fs2 extractDir "" ".db" with
          | [] => ⟨fs2, [gpgEv, tarEv], none⟩
          | d :: _ => ⟨fs2, [gpgEv, tarEv], some d⟩
        else ⟨fs1, [gpgEv, tarEv], none⟩
      | _ => ⟨fs1, [gpgEv, tarEv], none⟩
    | none => ⟨fs, [gpgEv], none⟩

/-! ## cleanup.py: cleanup_old_backups -/

/-- The per-file test of cleanup.py: take the substring before the first
dot of the file name, parse it as %d-%m-%y, and doom the file when that
midnight instant is strictly before the cutoff; unparseable names are
skipped. -/
def cleanupDecision (cutoff : Int) (name : String) : Bool :=
  match strptimeDMY (String.mk ((splitChar '.' name.data).headD [])) with
  | some days => decide (days * 86400 < cutoff)
  | none => false

/-- The files the sweep will unlink: the *.tar.gz.gpg children whose
parsed name date lies strictly before now minus the retention span. -/
def doomedFiles (fs : Fs) (backupsDir : String) (retentionDays : Int)
    (now : PyTime) : List String :=
  (glob fs backupsDir "" ".tar.gz.gpg").filter
    fun f => cleanupDecision ((now : Int) - retentionDays * 86400) (baseName f)

/-- cleanup.py cleanup_old_backups: returns the filesystem after the
sweep and the deleted count. The cutoff is datetime.now() minus the
retention in days, so it keeps the wall-clock time of day. -/
def cleanup_old_backups (fs : Fs) (backupsDir : String) (retentionDays : Int)
    (now : PyTime) : Fs × Nat :=
  if retentionDays ≤ 0 then (fs, 0)
  else
    ((doomedFiles fs backupsDir retentionDays now).foldl fsRemove fs,
     (doomedFiles fs backupsDir retentionDays now).length)

/-! ## postgres.py / sqlite.py adapters -/

/-- Python substring membership: needle in hay. -/
def containsSubList (needle : List Char) : List Char → Bool
  | [] => needle.isEmpty
  | b :: bs => subAt needle (b :: bs) || containsSubList needle bs

def containsSub (hay needle : String) : Bool :=
  containsSubList needle.data hay.data

/-- The stderr classification of restore_postgres at a non-zero
pg_restore exit: abort exactly when the text contains ERROR and neither
benign substring. -/
def replayAborts (stderr : String) : Bool :=
  containsSub stderr "ERROR" && !containsSub stderr "already exists" &&
    !containsSub stderr "does not exist"

def POSTGRES_CONTAINER : String := "remnawave-db"

/-- postgres.py restore_postgres: dump existence check, session
termination (exit status ignored), schema wipe, then pg_restore replay
whose non-zero exit is tolerated unless replayAborts holds. `replayOk`
is the replay tool's exit status, `replayStderr` its diagnostic text. -/
def restore_postgres (wipeOk replayOk : Bool) (replayStderr : String)
    (fs : Fs) (dumpFile : String) : Trace × Bool :=
  if !fsExists fs dumpFile then ([], false)
  else
    let dropEv := Event.proc ["docker", "exec", "-i", POSTGRES_CONTAINER, "psql",
        "-U", "postgres", "-c", "terminate-backends"] none
    let wipeEv := Event.proc ["docker", "exec", "-i", POSTGRES_CONTAINER, "psql",
        "-U", "postgres", "-d", "postgres", "-c", "drop-and-recreate-public-schema"] none
    let replayEv := Event.proc ["docker", "exec", "-i", POSTGRES_CONTAINER, "pg_restore",
        "-U", "postgres", "-d", "postgres", "--clean", "--if-exists",
        "--no-owner", "--no-privileges"] none
    if !wipeOk then ([dropEv, wipeEv], false)
    else if !replayOk && replayAborts replayStderr then
      ([dropEv, wipeEv, replayEv], false)
    else ([dropEv, wipeEv, replayEv], true)

def SQLITE_CONTAINER : String := "remnawave-tg-bot"
def SQLITE_DB_PATH : String := "/app/data/db/bot.db"

/-- The embedded store container: its live database file and its /tmp
staging slot. -/
structure SqliteCtr where
  db : Option Blob
  tmp : Option Blob
deriving DecidableEq, Repr

/-- postgres.py backup_postgres: open(backup_file, "wb") creates or
truncates the target before pg_dump runs, so a failing dump still leaves
an empty file. -/
def backup_postgres (dumpOk : Bool) (dumpData : List Nat) (fs : Fs)
    (backupDir dateStr : String) : Fs × Trace × Option String :=
  let backupFile := pathJoin backupDir ("postgres-backup-" ++ dateStr ++ ".dump")
  let ev := Event.proc ["docker", "exec", "-i", POSTGRES_CONTAINER, "pg_dump",
      "-U", "postgres", "-d", "postgres", "-Fc"] none
  if dumpOk then (fsInsert fs backupFile (Blob.raw dumpData), [ev], some backupFile)
  else (fsInsert fs backupFile (Blob.raw []), [ev], none)

/-- sqlite.py backup_sqlite: the online-backup primitive copies the live
database inside the container, then docker cp moves the copy to the
host backup file. -/
def backup_sqlite (backupOk cpOk : Bool) (ctr : SqliteCtr) (fs : Fs)
    (backupDir dateStr : String) : Fs × Trace × Option String :=
  let backupFile := pathJoin backupDir ("sqlite-backup-" ++ dateStr ++ ".db")
  let ev1 := Event.proc ["docker", "exec", SQLITE_CONTAINER, "sqlite3",
      SQLITE_DB_PATH, ".backup /tmp/sqlite_backup.db"] none
  let ev2 := Event.proc ["docker", "cp", SQLITE_CONTAINER ++ ":/tmp/sqlite_backup.db",
      backupFile] none
  match ctr.db, backupOk with
  | some b, true =>
    if cpOk then (fsInsert fs backupFile b, [ev1, ev2], some backupFile)
    else (fs, [ev1, ev2], none)
  | _, _ => (fs, [ev1], none)

/-- sqlite.py restore_sqlite. The argument is globbed as a DIRECTORY for
sqlite-backup-*.db children (this is exactly what the source does with
backup_dir.glob); the first match is docker-cp-ed into the container and
moved over the live database path. -/
def restore_sqlite (cpOk mvOk : Bool) (fs : Fs) (ctr : SqliteCtr)
    (backupDir : String) : SqliteCtr × Trace × Bool :=
  match glob fs backupDir "sqlite-backup-" ".db" with
  | [] => (ctr, [], false)
  | f :: _ =>
    let ev1 := Event.proc ["docker", "cp", f,
        SQLITE_CONTAINER ++ ":/tmp/sqlite_restore.db"] none
    let ev2 := Event.proc ["docker", "exec", SQLITE_CONTAINER, "mv",
        "/tmp/sqlite_restore.db", SQLITE_DB_PATH] none
    match fsLookup fs f, cpOk with
    | some content, true =>
      if mvOk then (⟨some content, none⟩, [ev1, ev2], true)
      else (⟨ctr.db, some content⟩, [ev1, ev2], false)
    | _, _ => (ctr, [ev1], false)

/-! ## telegram.py and cli.py -/

/-- telegram.py send_document: one HTTP upload, success reported by the
transport. -/
def send_document (uploadOk : Bool) (token chatId filePath caption : String) :
    Trace × Bool :=
  ([Event.upload token chatId filePath caption], uploadOk)

def BACKUPS_DIR : String := "/opt/remnawave-backups/data"

inductive BackupType where
  | panel
  | krisaBot
deriving DecidableEq, Repr

def pfxOf : BackupType → String
  | .panel => "panel"
  | .krisaBot => "krisa-bot"

def captionOf : BackupType → String
  | .panel => "🗄️ Panel Backup"
  | .krisaBot => "🗄️ Krisa-Bot Backup"

/-- Python truthiness of the os.environ.get result: an unset variable
(None) and an empty string are both falsy under not all([...]). -/
def pyTruthy : Option String → Bool
  | none => false
  | some s => s ≠ ""

inductive BackupOutcome where
  | missingSecrets
  | dumpFailed
  | archiveFailed
  | completed
deriving DecidableEq, Repr

/-- cli.py run_backup: secrets guard, then dump, encrypt, upload, sweep.
The outcome names the branch on which the source returns or logs. -/
def run_backup (botToken adminId backupPassword : Option String) (retentionDays : Int)
    (backupType : BackupType) (ctr : SqliteCtr) (dumpOk dumpCpOk : Bool)
    (dumpData : List Nat) (tarOk gpgOk uploadOk : Bool) (fs : Fs) (now : PyTime) :
    Fs × Trace × BackupOutcome :=
  if !(pyTruthy botToken && pyTruthy adminId && pyTruthy backupPassword) then
    (fs, [], BackupOutcome.missingSecrets)
  else
    let dateStr := formatDMY now
    let pw := backupPassword.getD ""
    let dres : Fs × Trace × Option String :=
      match backupType with
      | .panel => backup_postgres dumpOk dumpData fs BACKUPS_DIR dateStr
      | .krisaBot => backup_sqlite dumpOk dumpCpOk ctr fs BACKUPS_DIR dateStr
    match dres.2.2 with
    | none => (dres.1, dres.2.1, BackupOutcome.dumpFailed)
    | some dumpFile =>
      let aout := create_encrypted_archive tarOk gpgOk dres.1 dumpFile pw
        (pfxOf backupType) now
      match aout.ret with
      | none => (aout.fs, dres.2.1 ++ aout.trace, BackupOutcome.archiveFailed)
      | some archivePath =>
        let caption := captionOf backupType ++ " " ++ dateStr
        let send := send_document uploadOk (botToken.getD "") (adminId.getD "")
          archivePath caption
        let cl := cleanup_old_backups aout.fs BACKUPS_DIR retentionDays now
        (cl.1, dres.2.1 ++ aout.trace ++ send.1, BackupOutcome.completed)

structure RestoreOut where
  fs : Fs
  ctr : SqliteCtr
  ok : Bool
deriving DecidableEq, Repr

/-- cli.py run_restore: passphrase guard, decrypt, dispatch to the
dataset adapter, then delete the recovered dump file when it exists. -/
def run_restore (backupPassword : Option String) (backupType : BackupType)
    (tarOk cpOk mvOk wipeOk replayOk : Bool) (replayStderr : String)
    (fs : Fs) (ctr : SqliteCtr) (encryptedPath : String) : RestoreOut :=
  if !pyTruthy backupPassword then ⟨fs, ctr, false⟩
  else
    let pw := backupPassword.getD ""
    let dout := decrypt_archive tarOk fs encryptedPath pw
    match dout.ret with
    | none => ⟨dout.fs, ctr, false⟩
    | some dumpFile =>
      let step : SqliteCtr × Bool :=
        match backupType with
        | .panel => (ctr, (restore_postgres wipeOk replayOk replayStderr dout.fs dumpFile).2)
        | .krisaBot =>
          let r := restore_sqlite cpOk mvOk dout.fs ctr dumpFile
          (r.1, r.2.2)
      let fs2 := if fsExists dout.fs dumpFile then fsRemove dout.fs dumpFile else dout.fs
      ⟨fs2, step.1, step.2⟩

/-- The argument vectors of the cipher-process (gpg) invocations in a
trace, in order. -/
def cipherArgvs (tr : Trace) : List (List String) :=
  tr.filterMap fun e =>
    match e with
    | Event.proc argv _ => if argv.head? = some "gpg" then some argv else none
    | _ => none

/-! ## Basic filesystem lemmas -/

theorem fsLookup_fsInsert_self (fs : Fs) (p : String) (b : Blob) :
    fsLookup (fsInsert fs p b) p = some b := by
  induction fs with
  | nil => simp [fsInsert, fsLookup]
  | cons e rest ih =>
    obtain ⟨q, c⟩ := e
    by_cases h : q = p <;> simp [fsInsert, fsLookup, h, ih]

theorem fsLookup_fsInsert_ne (fs : Fs) (p q : String) (b : Blob) (h : q ≠ p) :
    fsLookup (fsInsert fs p b) q = fsLookup fs q := by
  induction fs with
  | nil => simp [fsInsert, fsLookup, Ne.symm h]
  | cons e rest ih =>
    obtain ⟨r, c⟩ := e
    by_cases hr : r = p
    · subst hr
      simp [fsInsert, fsLookup, Ne.symm h]
    · simp [fsInsert, fsLookup, hr, ih]

theorem fsLookup_fsRemove_self (fs : Fs) (p : String) :
    fsLookup (fsRemove fs p) p = none := by
  induction fs with
  | nil => simp [fsRemove, fsLookup]
  | cons e rest ih =>
    obtain ⟨q, c⟩ := e
    by_cases h : q = p <;> simp [fsRemove, fsLookup, h, ih]

theorem fsLookup_fsRemove_ne (fs : Fs) (p q : String) (h : q ≠ p) :
    fsLookup (fsRemove fs p) q = fsLookup fs q := by
  induction fs with
  | nil => simp [fsRemove, fsLookup]
  | cons e rest ih =>
    obtain ⟨r, c⟩ := e
    by_cases hr : r = p
    · subst hr
      simp [fsRemove, fsLookup, Ne.symm h, ih]
    · simp [fsRemove, fsLookup, hr, ih]

theorem fsLookup_of_fsExists_false (fs : Fs) (p : String)
    (h : fsExists fs p = false) : fsLookup fs p = none := by
  unfold fsExists at h
  cases hl : fsLookup fs p with
  | none => rfl
  | some b => rw [hl] at h; simp at h

/-- The intermediate container path and the encrypted output path always
differ: the latter is the former with ".gpg" appended. -/
theorem archivePath_ne_encryptedPath (dir pfx ds : String) :
    pathJoin dir (archiveName pfx ds) ≠ pathJoin dir (encryptedName pfx ds) := by
  intro h
  have hlen := congrArg String.length h
  have h1 : ".tar.gz".length = 7 := rfl
  have h2 : ".gpg".length = 4 := rfl
  simp only [pathJoin, encryptedName, archiveName, String.length_append, h1, h2] at hlen
  omega

theorem gpgDecryptBlob_self (pw : String) (inner : Blob) :
    gpgDecryptBlob (Blob.gpgEnc pw inner) pw = some inner := by
  simp [gpgDecryptBlob]

/-- The processes spawned by create_encrypted_archive: tar is always
attempted; gpg runs exactly when the dump exists and tar succeeded. -/
theorem create_trace_eq (tarOk gpgOk : Bool) (fs : Fs)
    (dumpFile pw pfx : String) (now : PyTime) :
    (create_encrypted_archive tarOk gpgOk fs dumpFile pw pfx now).trace
      = if ((fsLookup fs dumpFile).isSome && tarOk) = true
        then [tarCreateEvent dumpFile pfx now, gpgCreateEvent dumpFile pfx now pw]
        else [tarCreateEvent dumpFile pfx now] := by
  unfold create_encrypted_archive
  cases hL : fsLookup fs dumpFile <;> cases tarOk <;> cases gpgOk <;> simp [hL]

/-- The processes spawned by decrypt_archive: nothing when the input
checks fail, only gpg when decryption fails, gpg then tar otherwise. -/
theorem decrypt_trace_eq (tarOk : Bool) (fs : Fs) (enc pw : String) :
    (decrypt_archive tarOk fs enc pw).trace
      = if fsExists fs enc = false ∨ pySuffix enc ≠ ".gpg" then []
        else if gpgDecryptBlob ((fsLookup fs enc).getD (Blob.raw [])) pw = none
        then [gpgDecryptEvent enc pw]
        else [gpgDecryptEvent enc pw, tarExtractEvent enc] := by
  unfold decrypt_archive
  by_cases h1 : fsExists fs enc = true
  · by_cases h2 : pySuffix enc = ".gpg"
    · cases hg : gpgDecryptBlob ((fsLookup fs enc).getD (Blob.raw [])) pw with
      | none => simp [h1, h2, hg]
      | some inner =>
        cases inner with
        | raw d => simp [h1, h2, hg]
        | gpgEnc p b => simp [h1, h2, hg]
        | tarball n c =>
          cases tarOk with
          | false => simp [h1, h2, hg]
          | true =>
            cases hd : glob (fsRemove (fsInsert (fsInsert fs (pyDropSuffix enc)
                  (Blob.tarball n c)) (pathJoin (parentDir enc) n) c) (pyDropSuffix enc))
                (parentDir enc) "" ".dump"
              ++ glob (fsRemove (fsInsert (fsInsert fs (pyDropSuffix enc)
                  (Blob.tarball n c)) (pathJoin (parentDir enc) n) c) (pyDropSuffix enc))
                (parentDir enc) "" ".db" with
            | nil => simp [h1, h2, hg, hd]
            | cons d rest => simp [h1, h2, hg, hd]
    · simp [h1, h2]
  · simp only [Bool.not_eq_true] at h1
    simp [h1]

/-! ## Claims -/

/-- Claim C5: encrypting the dump `postgres-backup-14-01-26.dump` with
any content and any passphrase and decrypting the produced archive with
the same passphrase recovers a file at the original path whose content
is byte-for-byte the original, and the dump file itself is removed from
disk by the successful encrypt before decryption begins. -/
theorem encrypt_decrypt_round_trip (data : List Nat) (pw : String) :
    (create_encrypted_archive true true
        [(pathJoin BACKUPS_DIR "postgres-backup-14-01-26.dump", Blob.raw data)]
        (pathJoin BACKUPS_DIR "postgres-backup-14-01-26.dump") pw "panel"
        (civilSecs 2026 1 14)).ret
      = some (pathJoin BACKUPS_DIR "panel-14-01-26.tar.gz.gpg")
    ∧ fsLookup (create_encrypted_archive true true
        [(pathJoin BACKUPS_DIR "postgres-backup-14-01-26.dump", Blob.raw data)]
        (pathJoin BACKUPS_DIR "postgres-backup-14-01-26.dump") pw "panel"
        (civilSecs 2026 1 14)).fs
        (pathJoin BACKUPS_DIR "postgres-backup-14-01-26.dump") = none
    ∧ (decrypt_archive true (create_encrypted_archive true true
        [(pathJoin BACKUPS_DIR "postgres-backup-14-01-26.dump", Blob.raw data)]
        (pathJoin BACKUPS_DIR "postgres-backup-14-01-26.dump") pw "panel"
        (civilSecs 2026 1 14)).fs
        (pathJoin BACKUPS_DIR "panel-14-01-26.tar.gz.gpg") pw).ret
      = some (pathJoin BACKUPS_DIR "postgres-backup-14-01-26.dump")
    ∧ fsLookup (decrypt_archive true (create_encrypted_archive true true
        [(pathJoin BACKUPS_DIR "postgres-backup-14-01-26.dump", Blob.raw data)]
        (pathJoin BACKUPS_DIR "postgres-backup-14-01-26.dump") pw "panel"
        (civilSecs 2026 1 14)).fs
        (pathJoin BACKUPS_DIR "panel-14-01-26.tar.gz.gpg") pw).fs
        (pathJoin BACKUPS_DIR "postgres-backup-14-01-26.dump")
      = some (Blob.raw data) := by
  have hkey : gpgDecryptBlob
      ((fsLookup (create_encrypted_archive true true
          [(pathJoin BACKUPS_DIR "postgres-backup-14-01-26.dump", Blob.raw data)]
          (pathJoin BACKUPS_DIR "postgres-backup-14-01-26.dump") pw "panel"
          (civilSecs 2026 1 14)).fs
          (pathJoin BACKUPS_DIR "panel-14-01-26.tar.gz.gpg")).getD (Blob.raw [])) pw
      = some (Blob.tarball "postgres-backup-14-01-26.dump" (Blob.raw data)) := by
    rw [show (fsLookup (create_encrypted_archive true true
        [(pathJoin BACKUPS_DIR "postgres-backup-14-01-26.dump", Blob.raw data)]
        (pathJoin BACKUPS_DIR "postgres-backup-14-01-26.dump") pw "panel"
        (civilSecs 2026 1 14)).fs
        (pathJoin BACKUPS_DIR "panel-14-01-26.tar.gz.gpg")).getD (Blob.raw [])
        = Blob.gpgEnc pw (Blob.tarball "postgres-backup-14-01-26.dump" (Blob.raw data))
        from rfl]
    exact gpgDecryptBlob_self _ _
  refine ⟨rfl, rfl, ?_, ?_⟩
  · unfold decrypt_archive
    rw [hkey]
    rfl
  · unfold decrypt_archive
    rw [hkey]
    rfl

/-- Claim C1, code evaluated at the failing input: create_encrypted_archive
with the non-empty dataset prefix "panel" on 2026-01-14 produces the
archive `panel-14-01-26.tar.gz.gpg`; sixteen days later a sweep with a
7-day horizon deletes nothing, because the sweeper parses the substring
before the first dot — `panel-14-01-26` — which is not a valid %d-%m-%y
date, so the file is skipped forever. A bare-dated file of the same age
is deleted by the same sweep, showing the sweeper only understands the
unprefixed name shape and the filename contract is not interoperable. -/
theorem prefixed_archives_never_swept :
    (create_encrypted_archive true true
        [(pathJoin BACKUPS_DIR "postgres-backup-14-01-26.dump", Blob.raw [1, 2, 3])]
        (pathJoin BACKUPS_DIR "postgres-backup-14-01-26.dump") "pw" "panel"
        (civilSecs 2026 1 14)).ret
      = some (pathJoin BACKUPS_DIR "panel-14-01-26.tar.gz.gpg")
    ∧ cleanup_old_backups
        [(pathJoin BACKUPS_DIR "panel-14-01-26.tar.gz.gpg", Blob.raw [])]
        BACKUPS_DIR 7 (civilSecs 2026 1 30)
      = ([(pathJoin BACKUPS_DIR "panel-14-01-26.tar.gz.gpg", Blob.raw [])], 0)
    ∧ cleanup_old_backups
        [(pathJoin BACKUPS_DIR "14-01-26.tar.gz.gpg", Blob.raw [])]
        BACKUPS_DIR 7 (civilSecs 2026 1 30)
      = ([], 1) :=
  ⟨rfl, rfl, rfl⟩

/-- Claim C2, code evaluated at the failing input: in the krisa-bot
restore flow the decrypt step recovers the dump artifact
`sqlite-backup-14-01-26.db` and run_restore hands that FILE path to
restore_sqlite, which globs it as a directory for sqlite-backup-*.db
children; the glob is empty, so the adapter returns Failure and the live
container database is left untouched, refuting the claim that the
adapter accepts the dump-artifact path and returns Success. -/
theorem restore_sqlite_gets_file_path_and_fails :
    (decrypt_archive true
        [(pathJoin BACKUPS_DIR "krisa-bot-14-01-26.tar.gz.gpg",
          Blob.gpgEnc "pw" (Blob.tarball "sqlite-backup-14-01-26.db" (Blob.raw [7, 7])))]
        (pathJoin BACKUPS_DIR "krisa-bot-14-01-26.tar.gz.gpg") "pw").ret
      = some (pathJoin BACKUPS_DIR "sqlite-backup-14-01-26.db")
    ∧ glob (decrypt_archive true
        [(pathJoin BACKUPS_DIR "krisa-bot-14-01-26.tar.gz.gpg",
          Blob.gpgEnc "pw" (Blob.tarball "sqlite-backup-14-01-26.db" (Blob.raw [7, 7])))]
        (pathJoin BACKUPS_DIR "krisa-bot-14-01-26.tar.gz.gpg") "pw").fs
        (pathJoin BACKUPS_DIR "sqlite-backup-14-01-26.db") "sqlite-backup-" ".db"
      = []
    ∧ run_restore (some "pw") BackupType.krisaBot true true true true true ""
        [(pathJoin BACKUPS_DIR "krisa-bot-14-01-26.tar.gz.gpg",
          Blob.gpgEnc "pw" (Blob.tarball "sqlite-backup-14-01-26.db" (Blob.raw [7, 7])))]
        ⟨some (Blob.raw [9]), none⟩
        (pathJoin BACKUPS_DIR "krisa-bot-14-01-26.tar.gz.gpg")
      = ⟨[(pathJoin BACKUPS_DIR "krisa-bot-14-01-26.tar.gz.gpg",
          Blob.gpgEnc "pw" (Blob.tarball "sqlite-backup-14-01-26.db" (Blob.raw [7, 7])))],
         ⟨some (Blob.raw [9]), none⟩, false⟩ :=
  ⟨rfl, rfl, rfl⟩

/-- Claim C6: when the compression stage or the encryption stage fails,
create_encrypted_archive returns Failure (none), the encrypted output
path is untouched (no encrypted file is newly created), and the input
dump file entry is exactly what it was before the call — it is deleted
only on the all-stages-successful path. -/
theorem create_archive_failure_keeps_dump (tarOk gpgOk : Bool) (fs : Fs)
    (dumpFile pw pfx : String) (now : PyTime)
    (hfail : tarOk = false ∨ gpgOk = false)
    (hne : pathJoin (parentDir dumpFile) (archiveName pfx (formatDMY now)) ≠ dumpFile) :
    (create_encrypted_archive tarOk gpgOk fs dumpFile pw pfx now).ret = none
    ∧ fsLookup (create_encrypted_archive tarOk gpgOk fs dumpFile pw pfx now).fs
        (pathJoin (parentDir dumpFile) (encryptedName pfx (formatDMY now)))
      = fsLookup fs (pathJoin (parentDir dumpFile) (encryptedName pfx (formatDMY now)))
    ∧ fsLookup (create_encrypted_archive tarOk gpgOk fs dumpFile pw pfx now).fs dumpFile
      = fsLookup fs dumpFile := by
  unfold create_encrypted_archive
  cases hL : fsLookup fs dumpFile with
  | none => simp [hL]
  | some c =>
    rcases hfail with hf | hf
    · subst hf
      simp [hL]
    · subst hf
      cases tarOk with
      | false => simp [hL]
      | true =>
        simp only [hL, Bool.false_eq_true, if_false, if_true]
        refine ⟨trivial, ?_, ?_⟩
        · exact fsLookup_fsInsert_ne fs _ _ _
            (Ne.symm (archivePath_ne_encryptedPath (parentDir dumpFile) pfx (formatDMY now)))
        · rw [fsLookup_fsInsert_ne fs _ _ _ (Ne.symm hne), hL]

/-- Claim C6 witness: with the dump present, tar succeeding and gpg
failing, the call returns none, creates no encrypted output and leaves
the dump file content in place. -/
theorem create_archive_failure_keeps_dump_witness :
    (create_encrypted_archive true false
        [(pathJoin BACKUPS_DIR "postgres-backup-14-01-26.dump", Blob.raw [1])]
        (pathJoin BACKUPS_DIR "postgres-backup-14-01-26.dump") "pw" "panel"
        (civilSecs 2026 1 14)).ret = none
    ∧ fsLookup (create_encrypted_archive true false
        [(pathJoin BACKUPS_DIR "postgres-backup-14-01-26.dump", Blob.raw [1])]
        (pathJoin BACKUPS_DIR "postgres-backup-14-01-26.dump") "pw" "panel"
        (civilSecs 2026 1 14)).fs
        (pathJoin (parentDir (pathJoin BACKUPS_DIR "postgres-backup-14-01-26.dump"))
          (encryptedName "panel" (formatDMY (civilSecs 2026 1 14))))
      = fsLookup [(pathJoin BACKUPS_DIR "postgres-backup-14-01-26.dump", Blob.raw [1])]
        (pathJoin (parentDir (pathJoin BACKUPS_DIR "postgres-backup-14-01-26.dump"))
          (encryptedName "panel" (formatDMY (civilSecs 2026 1 14))))
    ∧ fsLookup (create_encrypted_archive true false
        [(pathJoin BACKUPS_DIR "postgres-backup-14-01-26.dump", Blob.raw [1])]
        (pathJoin BACKUPS_DIR "postgres-backup-14-01-26.dump") "pw" "panel"
        (civilSecs 2026 1 14)).fs
        (pathJoin BACKUPS_DIR "postgres-backup-14-01-26.dump")
      = fsLookup [(pathJoin BACKUPS_DIR "postgres-backup-14-01-26.dump", Blob.raw [1])]
        (pathJoin BACKUPS_DIR "postgres-backup-14-01-26.dump") :=
  create_archive_failure_keeps_dump true false
    [(pathJoin BACKUPS_DIR "postgres-backup-14-01-26.dump", Blob.raw [1])]
    (pathJoin BACKUPS_DIR "postgres-backup-14-01-26.dump") "pw" "panel"
    (civilSecs 2026 1 14) (Or.inr rfl) (by decide)

/-- Claim C10: when tar succeeds and gpg fails, the unencrypted
intermediate container `panel-<date>.tar.gz` remains on disk holding the
packed dump, the dump file itself is preserved, the encrypted output
path is untouched, and the call returns Failure. -/
theorem create_archive_gpg_failure_leaves_container (fs : Fs)
    (dumpFile pw pfx : String) (now : PyTime) (c : Blob)
    (hdump : fsLookup fs dumpFile = some c)
    (hne : pathJoin (parentDir dumpFile) (archiveName pfx (formatDMY now)) ≠ dumpFile) :
    (create_encrypted_archive true false fs dumpFile pw pfx now).ret = none
    ∧ fsLookup (create_encrypted_archive true false fs dumpFile pw pfx now).fs
        (pathJoin (parentDir dumpFile) (archiveName pfx (formatDMY now)))
      = some (Blob.tarball (baseName dumpFile) c)
    ∧ fsLookup (create_encrypted_archive true false fs dumpFile pw pfx now).fs dumpFile
      = some c
    ∧ fsLookup (create_encrypted_archive true false fs dumpFile pw pfx now).fs
        (pathJoin (parentDir dumpFile) (encryptedName pfx (formatDMY now)))
      = fsLookup fs (pathJoin (parentDir dumpFile) (encryptedName pfx (formatDMY now))) := by
  unfold create_encrypted_archive
  simp only [hdump, Bool.false_eq_true, if_false, if_true]
  refine ⟨trivial, ?_, ?_, ?_⟩
  · exact fsLookup_fsInsert_self fs _ _
  · rw [fsLookup_fsInsert_ne fs _ _ _ (Ne.symm hne), hdump]
  · exact fsLookup_fsInsert_ne fs _ _ _
      (Ne.symm (archivePath_ne_encryptedPath (parentDir dumpFile) pfx (formatDMY now)))

/-- Claim C10 witness: concrete gpg-stage failure leaving the
intermediate container next to the preserved dump. -/
theorem create_archive_gpg_failure_leaves_container_witness :
    (create_encrypted_archive true false
        [(pathJoin BACKUPS_DIR "postgres-backup-14-01-26.dump", Blob.raw [2, 3])]
        (pathJoin BACKUPS_DIR "postgres-backup-14-01-26.dump") "pw" "panel"
        (civilSecs 2026 1 14)).ret = none
    ∧ fsLookup (create_encrypted_archive true false
        [(pathJoin BACKUPS_DIR "postgres-backup-14-01-26.dump", Blob.raw [2, 3])]
        (pathJoin BACKUPS_DIR "postgres-backup-14-01-26.dump") "pw" "panel"
        (civilSecs 2026 1 14)).fs
        (pathJoin (parentDir (pathJoin BACKUPS_DIR "postgres-backup-14-01-26.dump"))
          (archiveName "panel" (formatDMY (civilSecs 2026 1 14))))
      = some (Blob.tarball (baseName (pathJoin BACKUPS_DIR "postgres-backup-14-01-26.dump"))
          (Blob.raw [2, 3]))
    ∧ fsLookup (create_encrypted_archive true false
        [(pathJoin BACKUPS_DIR "postgres-backup-14-01-26.dump", Blob.raw [2, 3])]
        (pathJoin BACKUPS_DIR "postgres-backup-14-01-26.dump") "pw" "panel"
        (civilSecs 2026 1 14)).fs
        (pathJoin BACKUPS_DIR "postgres-backup-14-01-26.dump")
      = some (Blob.raw [2, 3])
    ∧ fsLookup (create_encrypted_archive true false
        [(pathJoin BACKUPS_DIR "postgres-backup-14-01-26.dump", Blob.raw [2, 3])]
        (pathJoin BACKUPS_DIR "postgres-backup-14-01-26.dump") "pw" "panel"
        (civilSecs 2026 1 14)).fs
        (pathJoin (parentDir (pathJoin BACKUPS_DIR "postgres-backup-14-01-26.dump"))
          (encryptedName "panel" (formatDMY (civilSecs 2026 1 14))))
      = fsLookup [(pathJoin BACKUPS_DIR "postgres-backup-14-01-26.dump", Blob.raw [2, 3])]
        (pathJoin (parentDir (pathJoin BACKUPS_DIR "postgres-backup-14-01-26.dump"))
          (encryptedName "panel" (formatDMY (civilSecs 2026 1 14)))) :=
  create_archive_gpg_failure_leaves_container
    [(pathJoin BACKUPS_DIR "postgres-backup-14-01-26.dump", Blob.raw [2, 3])]
    (pathJoin BACKUPS_DIR "postgres-backup-14-01-26.dump") "pw" "panel"
    (civilSecs 2026 1 14) (Blob.raw [2, 3]) rfl (by decide)

/-- Claim C7: when any of the three required secrets (bot token, admin
chat id, backup password) is unset or empty, run_backup returns on the
missing-secrets branch with the filesystem unchanged and an empty side
effect trace: no dump, no archive process, no upload, no retention
sweep. -/
theorem run_backup_missing_secret_no_effects
    (botToken adminId backupPassword : Option String) (retentionDays : Int)
    (backupType : BackupType) (ctr : SqliteCtr) (dumpOk dumpCpOk : Bool)
    (dumpData : List Nat) (tarOk gpgOk uploadOk : Bool) (fs : Fs) (now : PyTime)
    (h : pyTruthy botToken = false ∨ pyTruthy adminId = false
      ∨ pyTruthy backupPassword = false) :
    run_backup botToken adminId backupPassword retentionDays backupType ctr dumpOk
        dumpCpOk dumpData tarOk gpgOk uploadOk fs now
      = (fs, [], BackupOutcome.missingSecrets) := by
  unfold run_backup
  rcases h with h | h | h <;> simp [h]

/-- Claim C7 witness: with the bot token absent the backup flow returns
immediately, leaving the one-file filesystem untouched and spawning
nothing. -/
theorem run_backup_missing_secret_no_effects_witness :
    run_backup none (some "42") (some "pw") 7 BackupType.panel ⟨none, none⟩ true true
        [9] true true true
        [(pathJoin BACKUPS_DIR "14-01-26.tar.gz.gpg", Blob.raw [])]
        (civilSecs 2026 1 30)
      = ([(pathJoin BACKUPS_DIR "14-01-26.tar.gz.gpg", Blob.raw [])], [],
         BackupOutcome.missingSecrets) :=
  run_backup_missing_secret_no_effects none (some "42") (some "pw") 7 BackupType.panel
    ⟨none, none⟩ true true [9] true true true
    [(pathJoin BACKUPS_DIR "14-01-26.tar.gz.gpg", Blob.raw [])]
    (civilSecs 2026 1 30) (Or.inl rfl)

/-- Claim C9: whenever the decrypt step of run_restore recovers a dump
file, that file is gone from the filesystem when the flow returns,
regardless of the dataset adapter chosen and of whether its restore
step succeeded or failed. -/
theorem run_restore_always_deletes_recovered_dump
    (backupPassword : Option String) (backupType : BackupType)
    (tarOk cpOk mvOk wipeOk replayOk : Bool) (replayStderr : String)
    (fs : Fs) (ctr : SqliteCtr) (encryptedPath dumpFile : String)
    (hpw : pyTruthy backupPassword = true)
    (hdec : (decrypt_archive tarOk fs encryptedPath (backupPassword.getD "")).ret
      = some dumpFile) :
    fsLookup (run_restore backupPassword backupType tarOk cpOk mvOk wipeOk replayOk
        replayStderr fs ctr encryptedPath).fs dumpFile = none := by
  unfold run_restore
  rw [hpw]
  simp only [Bool.not_true, Bool.false_eq_true, if_false]
  rw [hdec]
  by_cases hex : fsExists (decrypt_archive tarOk fs encryptedPath
      (backupPassword.getD "")).fs dumpFile = true
  · simp only [hex, if_true]
    exact fsLookup_fsRemove_self _ _
  · simp only [Bool.not_eq_true] at hex
    simp only [hex, Bool.false_eq_true, if_false]
    exact fsLookup_of_fsExists_false _ _ hex

/-- Claim C9 witness: a concrete krisa-bot restore whose adapter step
fails still ends with the recovered dump file removed. -/
theorem run_restore_always_deletes_recovered_dump_witness :
    pyTruthy (some "pw") = true
    ∧ fsLookup (run_restore (some "pw") BackupType.krisaBot true true true true true ""
        [(pathJoin BACKUPS_DIR "krisa-bot-14-01-26.tar.gz.gpg",
          Blob.gpgEnc "pw" (Blob.tarball "sqlite-backup-14-01-26.db" (Blob.raw [7])))]
        ⟨some (Blob.raw [9]), none⟩
        (pathJoin BACKUPS_DIR "krisa-bot-14-01-26.tar.gz.gpg")).fs
      (pathJoin BACKUPS_DIR "sqlite-backup-14-01-26.db") = none :=
  ⟨rfl, run_restore_always_deletes_recovered_dump (some "pw") BackupType.krisaBot
    true true true true true ""
    [(pathJoin BACKUPS_DIR "krisa-bot-14-01-26.tar.gz.gpg",
      Blob.gpgEnc "pw" (Blob.tarball "sqlite-backup-14-01-26.db" (Blob.raw [7])))]
    ⟨some (Blob.raw [9]), none⟩
    (pathJoin BACKUPS_DIR "krisa-bot-14-01-26.tar.gz.gpg")
    (pathJoin BACKUPS_DIR "sqlite-backup-14-01-26.db") rfl rfl⟩

/-- Claim C8: every cipher-process (gpg) invocation spawned by
create_encrypted_archive or decrypt_archive receives the passphrase only
on the stdin pipe (stdinData = some pw); and the sequence of argument
vectors handed to the cipher process is identical for any two
passphrases, so the passphrase never appears in (or influences) the
argv. -/
theorem gpg_passphrase_stdin_only
    (tarOk gpgOk tarOk2 : Bool) (fs fs2 : Fs)
    (dumpFile encPath pw p1 p2 pfx : String) (now : PyTime)
    (argv : List String) (sd : Option String)
    (hmem : Event.proc argv sd
        ∈ (create_encrypted_archive tarOk gpgOk fs dumpFile pw pfx now).trace
       ∨ Event.proc argv sd ∈ (decrypt_archive tarOk2 fs2 encPath pw).trace)
    (hgpg : argv.head? = some "gpg") :
    sd = some pw
    ∧ cipherArgvs (create_encrypted_archive tarOk gpgOk fs dumpFile p1 pfx now).trace
      = cipherArgvs (create_encrypted_archive tarOk gpgOk fs dumpFile p2 pfx now).trace
    ∧ cipherArgvs (decrypt_archive tarOk2 fs2 encPath p1).trace
      = cipherArgvs (decrypt_archive tarOk2 fs2 encPath p2).trace := by
  refine ⟨?_, ?_, ?_⟩
  · rcases hmem with hm | hm
    · rw [create_trace_eq] at hm
      by_cases hc : ((fsLookup fs dumpFile).isSome && tarOk) = true
      · rw [if_pos hc] at hm
        simp only [List.mem_cons, List.not_mem_nil, or_false] at hm
        rcases hm with hm | hm
        · unfold tarCreateEvent at hm
          injection hm with ha hs
          rw [ha] at hgpg
          simp at hgpg
        · unfold gpgCreateEvent at hm
          injection hm
      · rw [if_neg hc] at hm
        simp only [List.mem_cons, List.not_mem_nil, or_false] at hm
        unfold tarCreateEvent at hm
        injection hm with ha hs
        rw [ha] at hgpg
        simp at hgpg
    · rw [decrypt_trace_eq] at hm
      by_cases ho : fsExists fs2 encPath = false ∨ pySuffix encPath ≠ ".gpg"
      · rw [if_pos ho] at hm
        exact absurd hm (by simp)
      · rw [if_neg ho] at hm
        by_cases hi : gpgDecryptBlob ((fsLookup fs2 encPath).getD (Blob.raw [])) pw = none
        · rw [if_pos hi] at hm
          simp only [List.mem_cons, List.not_mem_nil, or_false] at hm
          unfold gpgDecryptEvent at hm
          injection hm
        · rw [if_neg hi] at hm
          simp only [List.mem_cons, List.not_mem_nil, or_false] at hm
          rcases hm with hm | hm
          · unfold gpgDecryptEvent at hm
            injection hm
          · unfold tarExtractEvent at hm
            injection hm with ha hs
            rw [ha] at hgpg
            simp at hgpg
  · rw [create_trace_eq tarOk gpgOk fs dumpFile p1 pfx now,
      create_trace_eq tarOk gpgOk fs dumpFile p2 pfx now]
    by_cases hc : ((fsLookup fs dumpFile).isSome && tarOk) = true
    · rw [if_pos hc, if_pos hc]
      simp [cipherArgvs, tarCreateEvent, gpgCreateEvent]
    · rw [if_neg hc, if_neg hc]
  · rw [decrypt_trace_eq tarOk2 fs2 encPath p1, decrypt_trace_eq tarOk2 fs2 encPath p2]
    by_cases ho : fsExists fs2 encPath = false ∨ pySuffix encPath ≠ ".gpg"
    · rw [if_pos ho, if_pos ho]
    · rw [if_neg ho, if_neg ho]
      by_cases hi1 : gpgDecryptBlob ((fsLookup fs2 encPath).getD (Blob.raw [])) p1 = none
        <;> by_cases hi2 : gpgDecryptBlob ((fsLookup fs2 encPath).getD (Blob.raw [])) p2 = none
      · rw [if_pos hi1, if_pos hi2]
        simp [cipherArgvs, gpgDecryptEvent]
      · rw [if_pos hi1, if_neg hi2]
        simp [cipherArgvs, gpgDecryptEvent, tarExtractEvent]
      · rw [if_neg hi1, if_pos hi2]
        simp [cipherArgvs, gpgDecryptEvent, tarExtractEvent]
      · rw [if_neg hi1, if_neg hi2]
        simp [cipherArgvs, gpgDecryptEvent, tarExtractEvent]

/-- Claim C8 witness: a concrete encrypt whose gpg event carries the
passphrase on stdin, with the cipher argv sequences of both functions
agreeing across two different passphrases. -/
theorem gpg_passphrase_stdin_only_witness :
    (some "pw" : Option String) = some "pw"
    ∧ cipherArgvs (create_encrypted_archive true true
        [(pathJoin BACKUPS_DIR "postgres-backup-14-01-26.dump", Blob.raw [1])]
        (pathJoin BACKUPS_DIR "postgres-backup-14-01-26.dump") "alpha" "panel"
        (civilSecs 2026 1 14)).trace
      = cipherArgvs (create_encrypted_archive true true
        [(pathJoin BACKUPS_DIR "postgres-backup-14-01-26.dump", Blob.raw [1])]
        (pathJoin BACKUPS_DIR "postgres-backup-14-01-26.dump") "beta" "panel"
        (civilSecs 2026 1 14)).trace
    ∧ cipherArgvs (decrypt_archive true
        [(pathJoin BACKUPS_DIR "panel-14-01-26.tar.gz.gpg",
          Blob.gpgEnc "alpha" (Blob.raw [1]))]
        (pathJoin BACKUPS_DIR "panel-14-01-26.tar.gz.gpg") "alpha").trace
      = cipherArgvs (decrypt_archive true
        [(pathJoin BACKUPS_DIR "panel-14-01-26.tar.gz.gpg",
          Blob.gpgEnc "alpha" (Blob.raw [1]))]
        (pathJoin BACKUPS_DIR "panel-14-01-26.tar.gz.gpg") "beta").trace :=
  gpg_passphrase_stdin_only true true true
    [(pathJoin BACKUPS_DIR "postgres-backup-14-01-26.dump", Blob.raw [1])]
    [(pathJoin BACKUPS_DIR "panel-14-01-26.tar.gz.gpg", Blob.gpgEnc "alpha" (Blob.raw [1]))]
    (pathJoin BACKUPS_DIR "postgres-backup-14-01-26.dump")
    (pathJoin BACKUPS_DIR "panel-14-01-26.tar.gz.gpg") "pw" "alpha" "beta" "panel"
    (civilSecs 2026 1 14)
    ["gpg", "--batch", "--yes", "--passphrase-fd", "0", "--cipher-algo", "AES256",
      "-c", "-o", pathJoin BACKUPS_DIR "panel-14-01-26.tar.gz.gpg",
      pathJoin BACKUPS_DIR "panel-14-01-26.tar.gz"]
    (some "pw") (Or.inl (by decide)) (by decide)

/-- Claim C3 counterexample: with retentionDays = 7 and the sweep run at
noon of 2026-01-21, the artifact `14-01-26.tar.gz.gpg` — exactly 7 days
old, which the claim says is retained — is deleted, because the cutoff
keeps the wall-clock time of day and midnight of 2026-01-14 is strictly
before 2026-01-14 12:00. -/
theorem sweep_deletes_boundary_file_after_midnight :
    cleanup_old_backups
      [(pathJoin BACKUPS_DIR "14-01-26.tar.gz.gpg", Blob.raw [])]
      BACKUPS_DIR 7 (civilSecs 2026 1 21 + 43200) = ([], 1) :=
  rfl

/-- Claim C3 as amended: at any instant of 2026-01-21 with retentionDays
= 7, the 8-day-old artifact `13-01-26.tar.gz.gpg` is deleted; the
7-day-old artifact `14-01-26.tar.gz.gpg` is deleted exactly when the
time of day is past midnight, since the comparison is against the full
timestamp now minus 7 days, not against the calendar date alone. -/
theorem sweep_boundary_time_of_day (tod : Nat) (h : tod < 86400) :
    fsLookup (cleanup_old_backups
        [(pathJoin BACKUPS_DIR "14-01-26.tar.gz.gpg", Blob.raw []),
         (pathJoin BACKUPS_DIR "13-01-26.tar.gz.gpg", Blob.raw [])]
        BACKUPS_DIR 7 (civilSecs 2026 1 21 + tod)).1
      (pathJoin BACKUPS_DIR "13-01-26.tar.gz.gpg") = none
    ∧ (fsLookup (cleanup_old_backups
        [(pathJoin BACKUPS_DIR "14-01-26.tar.gz.gpg", Blob.raw []),
         (pathJoin BACKUPS_DIR "13-01-26.tar.gz.gpg", Blob.raw [])]
        BACKUPS_DIR 7 (civilSecs 2026 1 21 + tod)).1
      (pathJoin BACKUPS_DIR "14-01-26.tar.gz.gpg") = none ↔ 0 < tod) := by
  rcases Nat.eq_zero_or_pos tod with h0 | hpos
  · subst h0
    exact ⟨rfl, by decide⟩
  · have hne : ¬ (7 : Int) ≤ 0 := by norm_num
    have e14 : cleanupDecision ((↑(civilSecs 2026 1 21 + tod) : Int) - 7 * 86400)
        (baseName (pathJoin BACKUPS_DIR "14-01-26.tar.gz.gpg")) = true := by
      have hr : cleanupDecision ((↑(civilSecs 2026 1 21 + tod) : Int) - 7 * 86400)
          (baseName (pathJoin BACKUPS_DIR "14-01-26.tar.gz.gpg"))
          = decide ((20467 : Int) * 86400
              < (↑(civilSecs 2026 1 21 + tod) : Int) - 7 * 86400) := rfl
      rw [hr, decide_eq_true_eq, show civilSecs 2026 1 21 = 1768953600 from rfl]
      push_cast
      omega
    have e13 : cleanupDecision ((↑(civilSecs 2026 1 21 + tod) : Int) - 7 * 86400)
        (baseName (pathJoin BACKUPS_DIR "13-01-26.tar.gz.gpg")) = true := by
      have hr : cleanupDecision ((↑(civilSecs 2026 1 21 + tod) : Int) - 7 * 86400)
          (baseName (pathJoin BACKUPS_DIR "13-01-26.tar.gz.gpg"))
          = decide ((20466 : Int) * 86400
              < (↑(civilSecs 2026 1 21 + tod) : Int) - 7 * 86400) := rfl
      rw [hr, decide_eq_true_eq, show civilSecs 2026 1 21 = 1768953600 from rfl]
      push_cast
      omega
    have hfilter : ∀ p : String → Bool,
        p (pathJoin BACKUPS_DIR "14-01-26.tar.gz.gpg") = true →
        p (pathJoin BACKUPS_DIR "13-01-26.tar.gz.gpg") = true →
        List.filter p [pathJoin BACKUPS_DIR "14-01-26.tar.gz.gpg",
          pathJoin BACKUPS_DIR "13-01-26.tar.gz.gpg"]
          = [pathJoin BACKUPS_DIR "14-01-26.tar.gz.gpg",
             pathJoin BACKUPS_DIR "13-01-26.tar.gz.gpg"] := by
      intro p h1 h2
      simp [List.filter_cons, h1, h2]
    have hdf : doomedFiles
        [(pathJoin BACKUPS_DIR "14-01-26.tar.gz.gpg", Blob.raw []),
         (pathJoin BACKUPS_DIR "13-01-26.tar.gz.gpg", Blob.raw [])]
        BACKUPS_DIR 7 (civilSecs 2026 1 21 + tod)
        = [pathJoin BACKUPS_DIR "14-01-26.tar.gz.gpg",
           pathJoin BACKUPS_DIR "13-01-26.tar.gz.gpg"] := by
      unfold doomedFiles
      rw [show glob
          [(pathJoin BACKUPS_DIR "14-01-26.tar.gz.gpg", Blob.raw []),
           (pathJoin BACKUPS_DIR "13-01-26.tar.gz.gpg", Blob.raw [])]
          BACKUPS_DIR "" ".tar.gz.gpg"
          = [pathJoin BACKUPS_DIR "14-01-26.tar.gz.gpg",
             pathJoin BACKUPS_DIR "13-01-26.tar.gz.gpg"] from rfl]
      exact hfilter _ e14 e13
    rw [cleanup_old_backups, if_neg hne, hdf]
    refine ⟨rfl, ?_⟩
    simp [hpos, fsRemove, fsLookup]

/-- Claim C3 amended witness: at noon of 2026-01-21 the 8-day-old file
is deleted and the 7-day-old file is deleted as well, since noon is past
midnight. -/
theorem sweep_boundary_time_of_day_witness :
    (43200 : Nat) < 86400
    ∧ (fsLookup (cleanup_old_backups
        [(pathJoin BACKUPS_DIR "14-01-26.tar.gz.gpg", Blob.raw []),
         (pathJoin BACKUPS_DIR "13-01-26.tar.gz.gpg", Blob.raw [])]
        BACKUPS_DIR 7 (civilSecs 2026 1 21 + 43200)).1
      (pathJoin BACKUPS_DIR "13-01-26.tar.gz.gpg") = none
    ∧ (fsLookup (cleanup_old_backups
        [(pathJoin BACKUPS_DIR "14-01-26.tar.gz.gpg", Blob.raw []),
         (pathJoin BACKUPS_DIR "13-01-26.tar.gz.gpg", Blob.raw [])]
        BACKUPS_DIR 7 (civilSecs 2026 1 21 + 43200)).1
      (pathJoin BACKUPS_DIR "14-01-26.tar.gz.gpg") = none ↔ 0 < 43200)) :=
  ⟨by decide, sweep_boundary_time_of_day 43200 (by decide)⟩

/-- Claim C4 counterexample: pg_restore exits non-zero with a diagnostic
stream that contains the unrelated error text "out of disk space"
alongside a benign "already exists" message; the restore nevertheless
returns Success, because one benign substring anywhere in the text
swallows every error in the same output. -/
theorem replay_benign_substring_swallows_other_errors :
    (restore_postgres true false
        "pg_restore: ERROR: out of disk space; ERROR: relation x already exists"
        [(pathJoin BACKUPS_DIR "postgres-backup-14-01-26.dump", Blob.raw [])]
        (pathJoin BACKUPS_DIR "postgres-backup-14-01-26.dump")).2 = true
    ∧ containsSub
        "pg_restore: ERROR: out of disk space; ERROR: relation x already exists"
        "out of disk space" = true :=
  ⟨rfl, rfl⟩

/-- Claim C4 as amended: when the replay tool exits non-zero, the
restore aborts with Failure exactly when the diagnostic text contains
the literal "ERROR" and contains neither "already exists" nor "does not
exist"; either benign substring anywhere (or the absence of the literal
"ERROR") swallows all error text, and a zero exit always succeeds. -/
theorem replay_error_classification (fs : Fs) (dumpFile stderrText : String)
    (hex : fsExists fs dumpFile = true) :
    ((restore_postgres true false stderrText fs dumpFile).2 = false
      ↔ (containsSub stderrText "ERROR" = true
          ∧ containsSub stderrText "already exists" = false
          ∧ containsSub stderrText "does not exist" = false))
    ∧ (restore_postgres true true stderrText fs dumpFile).2 = true := by
  constructor
  · unfold restore_postgres
    rw [hex]
    cases habort : replayAborts stderrText
    · simp only [habort, Bool.not_true, Bool.not_false, Bool.true_and, if_false]
      simp only [Bool.false_eq_true, if_false]
      constructor
      · intro hf
        exact absurd hf (by simp)
      · rintro ⟨h1, h2, h3⟩
        unfold replayAborts at habort
        rw [h1, h2, h3] at habort
        exact absurd habort (by simp)
    · have hparts := habort
      unfold replayAborts at hparts
      simp only [Bool.and_eq_true, Bool.not_eq_true'] at hparts
      simp [habort, hparts.1.1, hparts.1.2, hparts.2]
  · unfold restore_postgres
    rw [hex]
    simp

/-- Claim C4 amended witness: with the dump present, a non-zero replay
exit whose stderr is plain "ERROR: relation x" aborts the restore, and a
zero exit succeeds. -/
theorem replay_error_classification_witness :
    fsExists [(pathJoin BACKUPS_DIR "postgres-backup-14-01-26.dump", Blob.raw [])]
      (pathJoin BACKUPS_DIR "postgres-backup-14-01-26.dump") = true
    ∧ (((restore_postgres true false "ERROR: relation x"
          [(pathJoin BACKUPS_DIR "postgres-backup-14-01-26.dump", Blob.raw [])]
          (pathJoin BACKUPS_DIR "postgres-backup-14-01-26.dump")).2 = false
        ↔ (containsSub "ERROR: relation x" "ERROR" = true
            ∧ containsSub "ERROR: relation x" "already exists" = false
            ∧ containsSub "ERROR: relation x" "does not exist" = false))
       ∧ (restore_postgres true true "ERROR: relation x"
          [(pathJoin BACKUPS_DIR "postgres-backup-14-01-26.dump", Blob.raw [])]
          (pathJoin BACKUPS_DIR "postgres-backup-14-01-26.dump")).2 = true) :=
  ⟨rfl, replay_error_classification
    [(pathJoin BACKUPS_DIR "postgres-backup-14-01-26.dump", Blob.raw [])]
    (pathJoin BACKUPS_DIR "postgres-backup-14-01-26.dump") "ERROR: relation x" rfl⟩

end Backup
